import Mathlib

/-
Formal model of the personalized-audio-ad experiment platform.

The model is a shallow embedding of the request handlers of the repository and
batch script over an explicit database state:

- `Participant` mirrors one row of the `participants` table (timestamps are
  abstract clock values of type `Nat`; nullable text columns are
  `Option String`).
- Route handlers (`src/app/api/...`) become pure functions from the inbound
  request, the current database state, and boolean oracles for the outcomes
  of fallible collaborator calls (storage upload, TTS, database writes) to
  the next state plus the response.
- The generation batch script (`scripts/generate-audio.ts` style file,
  `processLowCondition` / `processMediumHighConditions`) becomes a fold over
  the fetched batch.
- The T1 client page (`src/app/t1/page.tsx`) contributes the response
  dispatch `fetchAudioDispatch`, the playback continue-gate, and the
  per-scale completion gate.
-/

/-- One row of the `participants` table. Nullable columns are `Option`;
timestamps are abstract `Nat` clock values. `qc_replaced_count` is
`INT NOT NULL DEFAULT 0` per the migration, hence a plain `Nat`. -/
structure Participant where
  prolific_pid : String
  study_id_t0 : Option String := none
  session_id_t0 : Option String := none
  condition : Option String := none
  audio_status : Option String := some "pending"
  audio_path : Option String := none
  audio_error : Option String := none
  audio_generated_at : Option Nat := none
  qc_status : Option String := some "pending"
  qc_checked_at : Option Nat := none
  qc_notes : Option String := none
  qc_replaced_count : Nat := 0
  t0_completed_at : Option Nat := none
  t1_completed_at : Option Nat := none
  deriving Repr, DecidableEq

/-- Database update keyed on `prolific_pid` (the `.eq` filter used by every
`update` call in the routes): apply `f` to each row whose pid matches. -/
def updateByPid (pid : String) (f : Participant → Participant)
    (l : List Participant) : List Participant :=
  l.map fun p => if p.prolific_pid = pid then f p else p

/-- JavaScript truthiness of a nullable string: `null`, `undefined` and the
empty string are falsy. -/
def strTruthy : Option String → Bool
  | none => false
  | some s => s ≠ ""

/-
T0 submission handler, `src/app/api/t0/submit/route.ts`.
-/

/-- Request body of POST `/api/t0/submit`. `has_t0_payload` abstracts the
truthiness check on `body.t0_payload` (only presence is tested). -/
structure T0Body where
  prolific_pid : String
  study_id : Option String := none
  session_id : Option String := none
  has_t0_payload : Bool := true
  deriving Repr, DecidableEq

/-- The field object passed to `upsert` in the T0 handler, applied to an
existing row: exactly the five listed columns are written, `condition`
hard-coded to the literal string `low`. -/
def applyT0 (body : T0Body) (now : Nat) (p : Participant) : Participant :=
  { p with
    study_id_t0 := body.study_id
    session_id_t0 := body.session_id
    condition := some "low"
    t0_completed_at := some now }

/-- Modelled from the spec: the `participants` table creation script is not
in the repository (only the QC-columns migration is), so the defaults of the
columns the T0 upsert leaves unspecified follow section 4.1 of the spec
(audio status initialized to `pending`, other audio fields null) and the
migration (`qc_status` default `pending`, `qc_replaced_count` default 0). -/
def newT0Record (body : T0Body) (now : Nat) : Participant :=
  { prolific_pid := body.prolific_pid
    study_id_t0 := body.study_id
    session_id_t0 := body.session_id
    condition := some "low"
    t0_completed_at := some now }

/-- Upsert with `onConflict: prolific_pid`: update the matching row when one
exists, otherwise insert a fresh row. -/
def upsertT0 (body : T0Body) (now : Nat) (parts : List Participant) :
    List Participant :=
  if parts.any (fun p => p.prolific_pid = body.prolific_pid) then
    updateByPid body.prolific_pid (applyT0 body now) parts
  else
    parts ++ [newT0Record body now]

/-- POST `/api/t0/submit`: validate `prolific_pid` and `t0_payload`
truthiness, then upsert. `dbOk` is the outcome oracle for the database
write; on a database error the handler returns 500 and no row changes.
Returns the new table contents and the success flag. -/
def t0SubmitRoute (dbOk : Bool) (now : Nat) (body : T0Body)
    (parts : List Participant) : List Participant × Bool :=
  if body.prolific_pid = "" then (parts, false)
  else if !body.has_t0_payload then (parts, false)
  else if !dbOk then (parts, false)
  else (upsertT0 body now parts, true)

lemma applyT0_mem_upsert (body : T0Body) (now : Nat)
    {parts : List Participant} {p : Participant} (hp : p ∈ parts)
    (hpid : p.prolific_pid = body.prolific_pid) :
    applyT0 body now p ∈ upsertT0 body now parts := by
  have hany : parts.any (fun q => q.prolific_pid = body.prolific_pid) = true := by
    exact List.any_eq_true.mpr ⟨p, hp, by simp [hpid]⟩
  unfold upsertT0
  rw [if_pos hany]
  unfold updateByPid
  have := List.mem_map_of_mem
    (fun q => if q.prolific_pid = body.prolific_pid then applyT0 body now q else q) hp
  simpa [hpid] using this

lemma t0SubmitRoute_valid (body : T0Body) (now : Nat)
    (parts : List Participant) (hne : body.prolific_pid ≠ "")
    (hpl : body.has_t0_payload = true) :
    t0SubmitRoute true now body parts = (upsertT0 body now parts, true) := by
  simp [t0SubmitRoute, hne, hpl]

/-- C3: every execution of the T0 submit path writes condition `low` and
nothing else: each row after the call is either an untouched pre-existing
row, or a row for the submitted identifier whose condition is `low`; and a
resubmission for an existing identifier overwrites the condition of that row
with `low`. -/
theorem t0_submit_condition_always_low (dbOk : Bool) (now : Nat)
    (body : T0Body) (parts : List Participant) :
    (∀ q ∈ (t0SubmitRoute dbOk now body parts).1,
      q ∈ parts ∨ (q.prolific_pid = body.prolific_pid ∧ q.condition = some "low")) ∧
    (body.prolific_pid ≠ "" → body.has_t0_payload = true → dbOk = true →
      ∀ p ∈ parts, p.prolific_pid = body.prolific_pid →
        applyT0 body now p ∈ (t0SubmitRoute dbOk now body parts).1 ∧
        (applyT0 body now p).condition = some "low") := by
  constructor
  · intro q hq
    unfold t0SubmitRoute at hq
    by_cases h1 : body.prolific_pid = ""
    · rw [if_pos h1] at hq; exact Or.inl hq
    · rw [if_neg h1] at hq
      by_cases h2 : body.has_t0_payload = true
      · rw [h2] at hq
        simp only [Bool.not_true, Bool.false_eq_true, if_false] at hq
        cases dbOk with
        | false => exact Or.inl hq
        | true =>
          simp only [Bool.not_true, Bool.false_eq_true, if_false] at hq
          unfold upsertT0 at hq
          by_cases hany : parts.any (fun p => p.prolific_pid = body.prolific_pid) = true
          · rw [if_pos hany] at hq
            unfold updateByPid at hq
            rcases List.mem_map.mp hq with ⟨p, hp, hfp⟩
            by_cases hpid : p.prolific_pid = body.prolific_pid
            · right
              rw [if_pos hpid] at hfp
              subst hfp
              exact ⟨hpid, rfl⟩
            · left
              rw [if_neg hpid] at hfp
              subst hfp
              exact hp
          · rw [if_neg hany] at hq
            rcases List.mem_append.mp hq with h | h
            · exact Or.inl h
            · right
              have : q = newT0Record body now := by simpa using h
              subst this
              exact ⟨rfl, rfl⟩
      · have h2f : body.has_t0_payload = false := by
          cases hb : body.has_t0_payload
          · rfl
          · exact absurd hb h2
        rw [h2f] at hq
        simp only [Bool.not_false, if_true] at hq
        exact Or.inl hq
  · intro hne hpl hdb p hp hpid
    subst hdb
    rw [t0SubmitRoute_valid body now parts hne hpl]
    exact ⟨applyT0_mem_upsert body now hp hpid, rfl⟩

/-- Demo row used by concrete witnesses below: an existing record with a
non-low condition and nontrivial audio and QC state. -/
def demoHighP : Participant :=
  { prolific_pid := "P1"
    condition := some "high"
    audio_status := some "generated"
    audio_path := some "P1.mp3"
    audio_generated_at := some 7
    qc_status := some "approved"
    qc_checked_at := some 8
    qc_notes := some "fine"
    qc_replaced_count := 3 }

/-- Demo T0 resubmission body. -/
def demoT0Body : T0Body :=
  { prolific_pid := "P1", study_id := some "S", session_id := some "Sess" }

theorem t0_submit_condition_always_low_witness :
    applyT0 demoT0Body 5 demoHighP ∈ (t0SubmitRoute true 5 demoT0Body [demoHighP]).1 ∧
    (applyT0 demoT0Body 5 demoHighP).condition = some "low" :=
  (t0_submit_condition_always_low true 5 demoT0Body [demoHighP]).2
    (by decide) rfl rfl demoHighP (List.mem_singleton.mpr rfl) rfl

/-- C10: a T0 resubmission for an existing identifier overwrites only the
condition and T0 fields (study and session identifiers, condition,
T0-completion timestamp) and leaves every audio field and every QC field of
the existing row unchanged. -/
theorem t0_resubmit_preserves_audio_qc (dbOk : Bool) (now : Nat)
    (body : T0Body) (parts : List Participant) (p : Participant)
    (hp : p ∈ parts) (hpid : p.prolific_pid = body.prolific_pid)
    (hne : body.prolific_pid ≠ "") (hpl : body.has_t0_payload = true)
    (hdb : dbOk = true) :
    applyT0 body now p ∈ (t0SubmitRoute dbOk now body parts).1 ∧
    (applyT0 body now p).prolific_pid = p.prolific_pid ∧
    (applyT0 body now p).audio_status = p.audio_status ∧
    (applyT0 body now p).audio_path = p.audio_path ∧
    (applyT0 body now p).audio_error = p.audio_error ∧
    (applyT0 body now p).audio_generated_at = p.audio_generated_at ∧
    (applyT0 body now p).qc_status = p.qc_status ∧
    (applyT0 body now p).qc_checked_at = p.qc_checked_at ∧
    (applyT0 body now p).qc_notes = p.qc_notes ∧
    (applyT0 body now p).qc_replaced_count = p.qc_replaced_count ∧
    (applyT0 body now p).t1_completed_at = p.t1_completed_at ∧
    (applyT0 body now p).condition = some "low" ∧
    (applyT0 body now p).study_id_t0 = body.study_id ∧
    (applyT0 body now p).session_id_t0 = body.session_id ∧
    (applyT0 body now p).t0_completed_at = some now := by
  subst hdb
  rw [t0SubmitRoute_valid body now parts hne hpl]
  exact ⟨applyT0_mem_upsert body now hp hpid, rfl, rfl, rfl, rfl, rfl, rfl,
    rfl, rfl, rfl, rfl, rfl, rfl, rfl, rfl⟩

theorem t0_resubmit_preserves_audio_qc_witness :
    applyT0 demoT0Body 5 demoHighP ∈ (t0SubmitRoute true 5 demoT0Body [demoHighP]).1 ∧
    (applyT0 demoT0Body 5 demoHighP).audio_status = demoHighP.audio_status ∧
    (applyT0 demoT0Body 5 demoHighP).qc_replaced_count = demoHighP.qc_replaced_count :=
  have h := t0_resubmit_preserves_audio_qc true 5 demoT0Body [demoHighP]
    demoHighP (List.mem_singleton.mpr rfl) rfl (by decide) rfl rfl
  ⟨h.1, h.2.2.1, h.2.2.2.2.2.2.2.2.2.1⟩

/-
T1 submission handler, `src/app/api/t1/submit/route.ts`.
-/

/-- Value stored in the `response_payload` column: the handler writes
`body.response_payload` when present and the empty object when absent
(the `body.response_payload` or-empty-object expression). -/
inductive RespPayload where
  | emptyObject
  | json (s : String)
  deriving Repr, DecidableEq

/-- Normalization applied by the handler before inserting. -/
def normalizePayload : Option String → RespPayload
  | none => RespPayload.emptyObject
  | some s => RespPayload.json s

/-- Request body of POST `/api/t1/submit`. -/
structure T1Body where
  prolific_pid : String
  response_payload : Option String := none
  deriving Repr, DecidableEq

/-- Database state touched by the T1 submission: the append-only
`responses_t1` table and the `participants` table. -/
structure T1DbState where
  responses : List (String × RespPayload)
  participants : List Participant
  deriving Repr, DecidableEq

/-- The update object written on the participant row by the T1 handler. -/
def stampT1 (now : Nat) (p : Participant) : Participant :=
  { p with t1_completed_at := some now }

/-- POST `/api/t1/submit`: validate pid, insert into `responses_t1`, and
only then stamp `t1_completed_at` on the participant row. `insertOk` and
`updateOk` are the outcome oracles of the two database writes; a failed
insert returns 500 before the participants table is touched. -/
def t1SubmitRoute (insertOk updateOk : Bool) (now : Nat) (body : T1Body)
    (st : T1DbState) : T1DbState × Bool :=
  if body.prolific_pid = "" then (st, false)
  else if !insertOk then (st, false)
  else
    let st1 : T1DbState :=
      { st with responses :=
          st.responses ++ [(body.prolific_pid, normalizePayload body.response_payload)] }
    if !updateOk then (st1, false)
    else
      ({ st1 with
          participants := updateByPid body.prolific_pid (stampT1 now) st1.participants },
        true)

/-- C7: the T1-completion stamp is written only after the response row is
durably inserted: a failed insert returns failure with both tables
unchanged, any execution that touches the participants table has first
appended the response row, and a successful call has appended exactly the
submitted response. -/
theorem t1_submit_insert_before_stamp (insertOk updateOk : Bool) (now : Nat)
    (body : T1Body) (st : T1DbState) :
    (insertOk = false → t1SubmitRoute insertOk updateOk now body st = (st, false)) ∧
    ((t1SubmitRoute insertOk updateOk now body st).1.participants ≠ st.participants →
      (t1SubmitRoute insertOk updateOk now body st).1.responses =
        st.responses ++ [(body.prolific_pid, normalizePayload body.response_payload)]) ∧
    ((t1SubmitRoute insertOk updateOk now body st).2 = true →
      (t1SubmitRoute insertOk updateOk now body st).1.responses =
        st.responses ++ [(body.prolific_pid, normalizePayload body.response_payload)]) := by
  refine ⟨?_, ?_, ?_⟩
  · intro h
    subst h
    unfold t1SubmitRoute
    by_cases h1 : body.prolific_pid = "" <;> simp [h1]
  · intro hne
    unfold t1SubmitRoute at *
    by_cases h1 : body.prolific_pid = ""
    · rw [if_pos h1] at hne; exact absurd rfl hne
    · rw [if_neg h1] at hne ⊢
      cases insertOk with
      | false => simp at hne
      | true =>
        simp only [Bool.not_true, Bool.false_eq_true, if_false] at hne ⊢
        cases updateOk with
        | false => simp
        | true => simp
  · intro hok
    unfold t1SubmitRoute at *
    by_cases h1 : body.prolific_pid = ""
    · rw [if_pos h1] at hok; simp at hok
    · rw [if_neg h1] at hok ⊢
      cases insertOk with
      | false => simp at hok
      | true =>
        simp only [Bool.not_true, Bool.false_eq_true, if_false] at hok ⊢
        cases updateOk with
        | false => simp at hok
        | true => simp

theorem t1_submit_insert_before_stamp_witness :
    t1SubmitRoute false true 9 { prolific_pid := "P1" }
      { responses := [], participants := [demoHighP] } =
      ({ responses := [], participants := [demoHighP] }, false) :=
  (t1_submit_insert_before_stamp false true 9 { prolific_pid := "P1" }
    { responses := [], participants := [demoHighP] }).1 rfl

/-
QC replace-audio handler, `src/app/api/admin/qc/replace-audio/route.ts`.
-/

/-- Normalization of the optional notes field: the handler stores
`qcNotes` when truthy and null otherwise, so an absent or empty string
becomes null. -/
def normNotes : Option String → Option String
  | none => none
  | some s => if s = "" then none else some s

/-- The read-then-increment lookup of `qc_replaced_count`: the handler
selects the row by pid with `.single()` ignoring errors, then coalesces a
missing value to 0. -/
def lookupCount (parts : List Participant) (pid : String) : Nat :=
  match parts.find? (fun p => p.prolific_pid = pid) with
  | some p => p.qc_replaced_count
  | none => 0

/-- The update object written by the replace-audio handler, with `count`
the value read immediately before. -/
def applyReplace (pid : String) (notes : Option String) (now : Nat)
    (count : Nat) (p : Participant) : Participant :=
  { p with
    audio_status := some "generated"
    audio_path := some (pid ++ ".mp3")
    audio_generated_at := some now
    audio_error := none
    qc_status := some "pending"
    qc_checked_at := some now
    qc_notes := normNotes notes
    qc_replaced_count := count + 1 }

/-- POST `/api/admin/qc/replace-audio`: validate pid and file, upload the
new bytes at the pid-derived path (overwrite), read the current replacement
count, and write the combined update. `hasFile`, `uploadOk` and `updateOk`
are the file-presence flag and the outcome oracles of the storage upload
and the database write. -/
def replaceAudioRoute (hasFile uploadOk updateOk : Bool) (pid : String)
    (notes : Option String) (now : Nat) (parts : List Participant) :
    List Participant × Bool :=
  if pid = "" then (parts, false)
  else if !hasFile then (parts, false)
  else if !uploadOk then (parts, false)
  else if !updateOk then (parts, false)
  else
    (updateByPid pid (applyReplace pid notes now (lookupCount parts pid)) parts,
      true)

lemma lookupCount_eq {parts : List Participant} {p : Participant}
    (hnd : (parts.map Participant.prolific_pid).Nodup) (hp : p ∈ parts) :
    lookupCount parts p.prolific_pid = p.qc_replaced_count := by
  unfold lookupCount
  have hsome : (parts.find? (fun q => q.prolific_pid = p.prolific_pid)).isSome := by
    rw [List.find?_isSome]
    exact ⟨p, hp, by simp⟩
  rcases Option.isSome_iff_exists.mp hsome with ⟨q, hq⟩
  rw [hq]
  have hqmem : q ∈ parts := List.mem_of_find?_eq_some hq
  have hqpid : q.prolific_pid = p.prolific_pid := by
    have := List.find?_some hq
    simpa using this
  have : q = p := List.inj_on_of_nodup_map hnd hqmem hp hqpid
  rw [this]

lemma updateByPid_mem {parts : List Participant} {p : Participant}
    (f : Participant → Participant) (hp : p ∈ parts) (pid : String)
    (hpid : p.prolific_pid = pid) :
    f p ∈ updateByPid pid f parts := by
  unfold updateByPid
  have := List.mem_map_of_mem (fun q => if q.prolific_pid = pid then f q else q) hp
  simpa [hpid] using this

lemma updateByPid_map_pid (pid : String) (f : Participant → Participant)
    (hf : ∀ p, (f p).prolific_pid = p.prolific_pid) (parts : List Participant) :
    (updateByPid pid f parts).map Participant.prolific_pid =
      parts.map Participant.prolific_pid := by
  unfold updateByPid
  rw [List.map_map]
  apply List.map_congr_left
  intro p _
  by_cases h : p.prolific_pid = pid <;> simp [h, hf]

/-- C6: a successful replace-audio call leaves the row with audio status
`generated`, a fresh generated timestamp, audio error cleared, QC status
`pending`, QC checked time stamped, notes set, and a replacement counter of
exactly one more than immediately before; a second successful call on the
result increments the counter again, reaching the original value plus two
with `qc_status` still `pending` and `audio_status` still `generated`. -/
theorem replace_audio_counter_and_reset
    (notes notes2 : Option String) (now now2 : Nat)
    (parts : List Participant) (p : Participant)
    (hnd : (parts.map Participant.prolific_pid).Nodup) (hp : p ∈ parts)
    (hne : p.prolific_pid ≠ "") :
    ∃ q ∈ (replaceAudioRoute true true true p.prolific_pid notes now parts).1,
      q.prolific_pid = p.prolific_pid ∧
      q.audio_status = some "generated" ∧
      q.audio_generated_at = some now ∧
      q.audio_error = none ∧
      q.qc_status = some "pending" ∧
      q.qc_checked_at = some now ∧
      q.qc_notes = normNotes notes ∧
      q.qc_replaced_count = p.qc_replaced_count + 1 ∧
      (replaceAudioRoute true true true p.prolific_pid notes now parts).2 = true ∧
      ∃ r ∈ (replaceAudioRoute true true true p.prolific_pid notes2 now2
          (replaceAudioRoute true true true p.prolific_pid notes now parts).1).1,
        r.prolific_pid = p.prolific_pid ∧
        r.qc_replaced_count = p.qc_replaced_count + 2 ∧
        r.qc_status = some "pending" ∧
        r.audio_status = some "generated" := by
  have hroute : ∀ (nts : Option String) (t : Nat) (l : List Participant),
      replaceAudioRoute true true true p.prolific_pid nts t l =
        (updateByPid p.prolific_pid
          (applyReplace p.prolific_pid nts t (lookupCount l p.prolific_pid)) l, true) := by
    intro nts t l
    unfold replaceAudioRoute
    rw [if_neg hne]
    rfl
  have hc1 : lookupCount parts p.prolific_pid = p.qc_replaced_count :=
    lookupCount_eq hnd hp
  have hq1 : applyReplace p.prolific_pid notes now p.qc_replaced_count p ∈
      (replaceAudioRoute true true true p.prolific_pid notes now parts).1 := by
    rw [hroute, hc1]
    exact updateByPid_mem _ hp _ rfl
  refine ⟨applyReplace p.prolific_pid notes now p.qc_replaced_count p, hq1, rfl,
    rfl, rfl, rfl, rfl, rfl, rfl, rfl, by rw [hroute], ?_⟩
  have hnd1 : (((replaceAudioRoute true true true p.prolific_pid notes now
      parts).1).map Participant.prolific_pid).Nodup := by
    rw [hroute]
    have hmap := updateByPid_map_pid p.prolific_pid
      (applyReplace p.prolific_pid notes now (lookupCount parts p.prolific_pid))
      (fun r => rfl) parts
    simpa [hmap] using hnd
  have hc2 : lookupCount
      (replaceAudioRoute true true true p.prolific_pid notes now parts).1
      p.prolific_pid = p.qc_replaced_count + 1 := by
    have h2 := lookupCount_eq hnd1 hq1
    exact h2
  have hr1 : applyReplace p.prolific_pid notes2 now2 (p.qc_replaced_count + 1)
        (applyReplace p.prolific_pid notes now p.qc_replaced_count p) ∈
      (replaceAudioRoute true true true p.prolific_pid notes2 now2
        (replaceAudioRoute true true true p.prolific_pid notes now parts).1).1 := by
    rw [hroute, hc2]
    exact updateByPid_mem _ hq1 _ rfl
  exact ⟨_, hr1, rfl, rfl, rfl, rfl⟩

theorem replace_audio_counter_and_reset_witness :
    ∃ q ∈ (replaceAudioRoute true true true demoHighP.prolific_pid (some "n") 11
        [demoHighP]).1,
      q.prolific_pid = demoHighP.prolific_pid ∧
      q.audio_status = some "generated" ∧
      q.audio_generated_at = some 11 ∧
      q.audio_error = none ∧
      q.qc_status = some "pending" ∧
      q.qc_checked_at = some 11 ∧
      q.qc_notes = normNotes (some "n") ∧
      q.qc_replaced_count = demoHighP.qc_replaced_count + 1 ∧
      (replaceAudioRoute true true true demoHighP.prolific_pid (some "n") 11
        [demoHighP]).2 = true ∧
      ∃ r ∈ (replaceAudioRoute true true true demoHighP.prolific_pid none 12
          (replaceAudioRoute true true true demoHighP.prolific_pid (some "n") 11
            [demoHighP]).1).1,
        r.prolific_pid = demoHighP.prolific_pid ∧
        r.qc_replaced_count = demoHighP.qc_replaced_count + 2 ∧
        r.qc_status = some "pending" ∧
        r.audio_status = some "generated" :=
  replace_audio_counter_and_reset (some "n") none 11 12 [demoHighP] demoHighP
    (by decide) (List.mem_singleton.mpr rfl) (by decide)

/-
Audio playback continue-gate of the T1 page, `src/app/t1/page.tsx`
(`handleTimeUpdate`, `handleAudioEnded`, and the disabled attribute of the Continue button, `!canContinueAudio`).
-/

/-- Client-side playback state: the `playTimeRef` value and the
`canContinueAudio` flag (initially false). Playback time is modelled as a
rational number. -/
structure AudioGate where
  playTime : ℚ
  canContinue : Bool
  deriving DecidableEq

/-- Initial playback state of a page visit. -/
def initGate : AudioGate := { playTime := 0, canContinue := false }

/-- Playback events observable by the page: a time update carrying the
current playback position, or the ended signal. -/
inductive PlayEvent where
  | timeUpdate (t : ℚ)
  | ended
  deriving DecidableEq

/-- The `onTimeUpdate` handler: record the current time, and flip
`canContinueAudio` to true when the position has reached 2 and the flag is
not yet set. -/
def handleTimeUpdate (s : AudioGate) (t : ℚ) : AudioGate :=
  let s1 : AudioGate := { s with playTime := t }
  if 2 ≤ s1.playTime ∧ s1.canContinue = false then
    { s1 with canContinue := true }
  else s1

/-- The `onEnded` handler: unconditionally enable the continue gate. -/
def handleAudioEnded (s : AudioGate) : AudioGate :=
  { s with canContinue := true }

/-- One step of the playback gate. -/
def gateStep (s : AudioGate) : PlayEvent → AudioGate
  | PlayEvent.timeUpdate t => handleTimeUpdate s t
  | PlayEvent.ended => handleAudioEnded s

/-- Run the gate over a sequence of playback events from the initial
state. -/
def runGate (evs : List PlayEvent) : AudioGate :=
  evs.foldl gateStep initGate

/-- Whether a single event satisfies the minimum-exposure condition. -/
def gateTrigger : PlayEvent → Bool
  | PlayEvent.timeUpdate t => decide (2 ≤ t)
  | PlayEvent.ended => true

lemma gateStep_canContinue (s : AudioGate) (e : PlayEvent) :
    (gateStep s e).canContinue = (s.canContinue || gateTrigger e) := by
  cases e with
  | ended => cases s.canContinue <;> simp [gateStep, handleAudioEnded, gateTrigger]
  | timeUpdate t =>
    simp only [gateStep, handleTimeUpdate, gateTrigger]
    by_cases h2 : (2 : ℚ) ≤ t
    · cases hc : s.canContinue <;> simp [h2, hc]
    · cases hc : s.canContinue <;> simp [h2, hc]

lemma foldl_gate_canContinue (evs : List PlayEvent) (s : AudioGate) :
    (evs.foldl gateStep s).canContinue = (s.canContinue || evs.any gateTrigger) := by
  induction evs generalizing s with
  | nil => simp
  | cons e rest ih =>
    simp only [List.foldl_cons, List.any_cons]
    rw [ih, gateStep_canContinue]
    cases s.canContinue <;> simp

/-- C8: the gate from the audio state to the first survey scale is enabled
exactly when some playback event so far reached position 2 or was the
ended signal, and it is a one-way latch: a single step never disables it,
and once enabled after a sequence of events it stays enabled after any
further events. -/
theorem audio_gate_monotone_latch :
    (∀ (s : AudioGate) (e : PlayEvent),
      s.canContinue = true → (gateStep s e).canContinue = true) ∧
    (∀ evs₁ evs₂ : List PlayEvent, (runGate evs₁).canContinue = true →
      (runGate (evs₁ ++ evs₂)).canContinue = true) ∧
    (∀ evs : List PlayEvent,
      (runGate evs).canContinue = true ↔ ∃ e ∈ evs, gateTrigger e = true) := by
  refine ⟨?_, ?_, ?_⟩
  · intro s e h
    rw [gateStep_canContinue, h]
    simp
  · intro evs₁ evs₂ h
    unfold runGate at *
    rw [foldl_gate_canContinue] at h ⊢
    simp only [initGate, Bool.false_or] at h ⊢
    rw [List.any_append, h]
    simp
  · intro evs
    unfold runGate
    rw [foldl_gate_canContinue]
    simp [initGate, List.any_eq_true]

theorem audio_gate_monotone_latch_witness :
    (runGate [PlayEvent.timeUpdate 3]).canContinue = true ∧
    (runGate ([PlayEvent.timeUpdate 3] ++
      [PlayEvent.timeUpdate 0, PlayEvent.timeUpdate 1])).canContinue = true := by
  have h := audio_gate_monotone_latch
  have h1 : (runGate [PlayEvent.timeUpdate 3]).canContinue = true :=
    (h.2.2 [PlayEvent.timeUpdate 3]).mpr
      ⟨PlayEvent.timeUpdate 3, List.mem_singleton.mpr rfl, by norm_num [gateTrigger]⟩
  exact ⟨h1, h.2.1 [PlayEvent.timeUpdate 3]
    [PlayEvent.timeUpdate 0, PlayEvent.timeUpdate 1] h1⟩

/-
Survey scale gating of the T1 page, `src/app/t1/page.tsx`
(`activeScales`, `isCurrentScaleComplete`, `handleAnswerChange`) over the
questionnaire configuration `src/config/t1_items.ts`.
-/

/-- One questionnaire item: its identifier and active flag (the rendering
fields `text` or `prompt` and the endpoints of the semantic differential
play no role in the gating logic and are omitted). -/
structure SurveyItem where
  item_id : String
  active : Bool
  deriving Repr, DecidableEq

/-- One questionnaire scale. -/
structure SurveyScale where
  scale_id : String
  items : List SurveyItem
  deriving Repr, DecidableEq

/-- The `activeScales` computation of the page: keep only scales having at
least one active item (filtered before numbering). -/
def activeScales (scales : List SurveyScale) : List SurveyScale :=
  scales.filter fun s => s.items.any (fun it => it.active)

/-- Total step count shown on the page: active scales plus the audio
step. -/
def totalSteps (scales : List SurveyScale) : Nat :=
  (activeScales scales).length + 1

/-- Per-scale completion check: every active item of the scale has a
recorded answer (the `answers` map has an entry for its item id). -/
def isScaleComplete (answers : String → Option Nat) (s : SurveyScale) : Bool :=
  (s.items.filter (fun it => it.active)).all fun it => (answers it.item_id).isSome

/-- The `isCurrentScaleComplete` check of the page: false outside the survey step,
otherwise the completion check applied to the scale at the current index
of the filtered sequence. -/
def isCurrentScaleComplete (surveyStep : Bool) (scales : List SurveyScale)
    (idx : Nat) (answers : String → Option Nat) : Bool :=
  if surveyStep = false then false
  else
    match (activeScales scales).get? idx with
    | some s => isScaleComplete answers s
    | none => false

/-- The `handleAnswerChange` handler of the page: functional update of the answers
map. -/
def handleAnswerChange (answers : String → Option Nat) (itemId : String)
    (v : Nat) : String → Option Nat :=
  fun id => if id = itemId then some v else answers id

/-- Answers accumulated from a list of answer events, starting from the
empty map. -/
def applyAnswers (evs : List (String × Nat)) : String → Option Nat :=
  evs.foldl (fun ans ev => handleAnswerChange ans ev.1 ev.2) (fun _ => none)

/-- The radio values rendered for every item, 1 through 7. -/
def radioValues : List Nat := [1, 2, 3, 4, 5, 6, 7]

lemma applyAnswers_range_aux (evs : List (String × Nat))
    (acc : String → Option Nat)
    (hacc : ∀ id v, acc id = some v → 1 ≤ v ∧ v ≤ 7)
    (hevs : ∀ ev ∈ evs, ev.2 ∈ radioValues) :
    ∀ id v, evs.foldl (fun ans ev => handleAnswerChange ans ev.1 ev.2) acc id =
      some v → 1 ≤ v ∧ v ≤ 7 := by
  induction evs generalizing acc with
  | nil => exact hacc
  | cons e rest ih =>
    intro id v hv
    refine ih (handleAnswerChange acc e.1 e.2) ?_ (fun ev hev => hevs ev (by simp [hev]))
      id v hv
    intro id v h
    unfold handleAnswerChange at h
    by_cases hid : id = e.1
    · rw [if_pos hid] at h
      have he : e.2 ∈ radioValues := hevs e (by simp)
      have hv2 : e.2 = v := by injection h
      subst hv2
      have hd : e.2 = 1 ∨ e.2 = 2 ∨ e.2 = 3 ∨ e.2 = 4 ∨ e.2 = 5 ∨ e.2 = 6 ∨
          e.2 = 7 := by simpa [radioValues] using he
      omega
    · rw [if_neg hid] at h
      exact hacc id v h

/-- C9: scale advancement gating. The completion check is true at the
current survey index exactly when every active item of that scale is
answered; it is false for the all-unanswered map whenever the scale has an
active item; the filtered sequence contains exactly the scales with at
least one active item, so zero-active scales appear at no position of the
step sequence and do not count toward the step total; and every answer
recorded through the radio handlers is an integer between 1 and 7. -/
theorem survey_scale_gating :
    (∀ (scales : List SurveyScale) (idx : Nat) (answers : String → Option Nat)
        (s : SurveyScale), (activeScales scales).get? idx = some s →
      (isCurrentScaleComplete true scales idx answers = true ↔
        ∀ it ∈ s.items, it.active = true → (answers it.item_id).isSome = true)) ∧
    (∀ s : SurveyScale, (∃ it ∈ s.items, it.active = true) →
      isScaleComplete (fun _ => none) s = false) ∧
    (∀ (scales : List SurveyScale) (s : SurveyScale),
      s ∈ activeScales scales ↔ s ∈ scales ∧ ∃ it ∈ s.items, it.active = true) ∧
    (∀ evs : List (String × Nat), (∀ ev ∈ evs, ev.2 ∈ radioValues) →
      ∀ id v, applyAnswers evs id = some v → 1 ≤ v ∧ v ≤ 7) := by
  refine ⟨?_, ?_, ?_, ?_⟩
  · intro scales idx answers s hs
    unfold isCurrentScaleComplete
    rw [hs]
    simp only [if_neg (by simp : ¬(true = false))]
    unfold isScaleComplete
    rw [List.all_eq_true]
    constructor
    · intro h it hit hact
      exact h it (List.mem_filter.mpr ⟨hit, by simp [hact]⟩)
    · intro h it hit
      rcases List.mem_filter.mp hit with ⟨hmem, hact⟩
      exact h it hmem (by simpa using hact)
  · intro s hs
    rcases hs with ⟨it, hit, hact⟩
    unfold isScaleComplete
    rw [Bool.eq_false_iff]
    intro hall
    rw [List.all_eq_true] at hall
    have := hall it (List.mem_filter.mpr ⟨hit, by simp [hact]⟩)
    simp at this
  · intro scales s
    unfold activeScales
    rw [List.mem_filter]
    simp [List.any_eq_true]
  · intro evs hevs id v hv
    exact applyAnswers_range_aux evs (fun _ => none) (by intro id v h; simp at h)
      hevs id v hv

/-- Concrete two-scale configuration: one scale with active items, one
scale with no active item. -/
def demoScaleA : SurveyScale :=
  { scale_id := "relevance"
    items := [{ item_id := "rel1", active := true },
              { item_id := "rel2", active := true }] }

/-- A scale whose items are all inactive. -/
def demoScaleB : SurveyScale :=
  { scale_id := "unused", items := [{ item_id := "u1", active := false }] }

theorem survey_scale_gating_witness :
    (isCurrentScaleComplete true [demoScaleA, demoScaleB] 0
        (applyAnswers [("rel1", 4), ("rel2", 7)]) = true) ∧
    isScaleComplete (fun _ => none) demoScaleA = false ∧
    (demoScaleB ∉ activeScales [demoScaleA, demoScaleB]) := by
  have h := survey_scale_gating
  refine ⟨?_, ?_, ?_⟩
  · exact (h.1 [demoScaleA, demoScaleB] 0 (applyAnswers [("rel1", 4), ("rel2", 7)])
      demoScaleA (by decide)).mpr (by decide)
  · exact h.2.1 demoScaleA ⟨{ item_id := "rel1", active := true }, by decide, rfl⟩
  · intro hmem
    have := (h.2.2.1 [demoScaleA, demoScaleB] demoScaleB).mp hmem
    revert this
    decide

/-
Audio read endpoint, `src/app/api/t1/get-audio/route.ts`, and the client
dispatch on its response in `src/app/t1/page.tsx` (`fetchAudio`).
-/

/-- Response of GET `/api/t1/get-audio` (the fields the client consumes
plus the record fields echoed back). -/
structure GetAudioResp where
  ok : Bool
  found : Option Bool := none
  status : Option String := none
  condition : Option String := none
  audio_path : Option String := none
  audio_url : Option String := none
  audio_error : Option String := none
  errMsg : Option String := none
  deriving Repr, DecidableEq

/-- GET `/api/t1/get-audio`: validate the pid parameter, look the row up,
and attach a signed URL exactly when `audio_status` is the string
`generated` and `audio_path` is truthy; `sign` abstracts
`createSignedUrl` (returning none on a signing error, in which case the
handler proceeds with a null URL). The `status` field returned is the raw
`audio_status` column, and `qc_status` is neither selected nor
consulted. -/
def getAudioRoute (sign : String → Option String) (pidParam : Option String)
    (lookup : Option Participant) : GetAudioResp :=
  match pidParam with
  | none => { ok := false, errMsg := some "Missing prolific_pid" }
  | some pid =>
    if pid = "" then { ok := false, errMsg := some "Missing prolific_pid" }
    else
      match lookup with
      | none => { ok := true, found := some false, status := some "not_found" }
      | some p =>
        let audioUrl : Option String :=
          if p.audio_status = some "generated" ∧ strTruthy p.audio_path then
            sign (p.audio_path.getD "")
          else none
        { ok := true
          found := some true
          status := p.audio_status
          condition := p.condition
          audio_path := p.audio_path
          audio_url := audioUrl
          audio_error := p.audio_error }

/-- Client-observable survey delivery steps of the T1 page. -/
inductive ClientStep where
  | loading
  | audio
  | survey
  | submitting
  | complete
  | err
  deriving Repr, DecidableEq

/-- Outcome of the client `fetchAudio` effect: the step entered, the
error message shown (empty when none), and the stored audio URL. -/
structure FetchOutcome where
  step : ClientStep
  errorMessage : String
  audioUrl : Option String
  deriving Repr, DecidableEq

/-- The client dispatch on the get-audio response, clause for clause:
a failed response or a not-found record errors out; status `pending` shows
the still-generating message; status `qc_pending` shows the under-review
message; anything other than status `ready` with a truthy URL shows the
unavailable message; otherwise the page stores the URL and enters the
audio step. -/
def fetchAudioDispatch (data : GetAudioResp) : FetchOutcome :=
  if data.ok = false then
    { step := ClientStep.err
      errorMessage := (data.errMsg.getD "Failed to fetch audio")
      audioUrl := none }
  else if data.found = some false then
    { step := ClientStep.err
      errorMessage := "Participant not found. Please complete part 1 first."
      audioUrl := none }
  else if data.status = some "pending" then
    { step := ClientStep.err
      errorMessage := "Your audio is still being generated. Please try again later."
      audioUrl := none }
  else if data.status = some "qc_pending" then
    { step := ClientStep.err
      errorMessage := "Your audio is under review. Please try again later."
      audioUrl := none }
  else if data.status ≠ some "ready" ∨ strTruthy data.audio_url = false then
    { step := ClientStep.err
      errorMessage := "Your audio is not available."
      audioUrl := none }
  else
    { step := ClientStep.audio, errorMessage := "", audioUrl := data.audio_url }

/-- Servability of a record as the specification states it in section 4.2:
audio status `generated` and (condition not `high` or QC status
`approved`). This definition follows the words of the spec, for comparison with
the behaviour of `getAudioRoute`, which is translated from the source. -/
def specServable (p : Participant) : Bool :=
  p.audio_status = some "generated" &&
    (p.condition ≠ some "high" || p.qc_status = some "approved")

/-- A concrete signing oracle that always succeeds. -/
def demoSign : String → Option String := fun s => some ("signed-" ++ s)

/-- A high-condition record whose audio is generated but whose QC review is
still pending. -/
def highUnderReviewP : Participant :=
  { prolific_pid := "P9"
    condition := some "high"
    audio_status := some "generated"
    audio_path := some "P9.mp3"
    audio_generated_at := some 3
    qc_status := some "pending" }

/-- C1 (counterexample evaluation): the read endpoint ignores `qc_status`.
On a high-condition record with audio generated and QC pending — not
servable by the rule of the specification — the endpoint nevertheless attaches
a signed URL, and its response is identical to the one for the same record
already QC-approved. -/
theorem get_audio_ignores_qc_gate :
    specServable highUnderReviewP = false ∧
    (getAudioRoute demoSign (some "P9") (some highUnderReviewP)).audio_url =
      some "signed-P9.mp3" ∧
    getAudioRoute demoSign (some "P9") (some highUnderReviewP) =
      getAudioRoute demoSign (some "P9")
        (some { highUnderReviewP with qc_status := some "approved" }) := by
  refine ⟨rfl, ?_, ?_⟩ <;> decide

/-- The low-condition record of the end-to-end scenario after a successful
batch run. -/
def lowGeneratedP : Participant :=
  { prolific_pid := "P1"
    condition := some "low"
    audio_status := some "generated"
    audio_path := some "low.mp3"
    audio_generated_at := some 4 }

/-- C2 (counterexample evaluation): the survey delivery never reaches the
audio step. For the servable low-condition record of the end-to-end
scenario the endpoint does attach the signed URL but reports status
`generated`, while the client only enters the audio step on status
`ready`; the dispatch therefore lands in the error step with the
unavailable message instead of the audio step. -/
theorem t1_client_never_reaches_audio :
    specServable lowGeneratedP = true ∧
    (getAudioRoute demoSign (some "P1") (some lowGeneratedP)).status =
      some "generated" ∧
    (getAudioRoute demoSign (some "P1") (some lowGeneratedP)).audio_url =
      some "signed-low.mp3" ∧
    (fetchAudioDispatch (getAudioRoute demoSign (some "P1") (some lowGeneratedP))).step =
      ClientStep.err ∧
    (fetchAudioDispatch (getAudioRoute demoSign (some "P1") (some lowGeneratedP))).errorMessage =
      "Your audio is not available." := by
  refine ⟨rfl, ?_, ?_, ?_, ?_⟩ <;> decide

/-
Audio generation batch script (`processLowCondition` and
`processMediumHighConditions`).
-/

/-- The per-condition ad texts of the script. -/
def TEXTS_low : String :=
  "Welcome back to the podcast. This is the low personalization test ad. Now back to the episode."

/-- Medium-condition ad text. -/
def TEXTS_medium : String :=
  "Welcome back to the podcast. This is the medium personalization test ad. Now back to the episode."

/-- High-condition ad text. -/
def TEXTS_high : String :=
  "Welcome back to the podcast. This is the high personalization test ad. Now back to the episode."

/-- The batch cap of the medium/high branch. -/
def BATCH_SIZE : Nat := 50

/-- Database-plus-storage state seen by the batch script: the set of blob
paths present in the `ads-audio` bucket and the `participants` table. -/
structure DbState where
  storage : List String
  participants : List Participant
  deriving Repr, DecidableEq

/-- Outcome oracles of the low branch: whether the TTS call for the shared
text succeeds, whether the storage upload succeeds, and whether the bulk
database update succeeds. -/
structure LowEnv where
  ttsOk : Bool
  uploadOk : Bool
  updateOk : Bool
  deriving Repr, DecidableEq

/-- The filter of the bulk update in the low branch: condition `low` and
audio status `pending`. -/
def isPendingLow (p : Participant) : Bool :=
  p.condition = some "low" && p.audio_status = some "pending"

/-- The update object of the bulk update in the low branch: status `generated`,
the shared path, the current time, stale error cleared. -/
def setLowGenerated (now : Nat) (p : Participant) : Participant :=
  { p with
    audio_status := some "generated"
    audio_path := some "low.mp3"
    audio_generated_at := some now
    audio_error := none }

/-- Result of the low branch: the new state, the count of updated rows the
run reports, and the number of TTS generation calls it performed. -/
structure LowResult where
  st : DbState
  count : Nat
  genCalls : Nat
  deriving Repr, DecidableEq

/-- The bulk update step shared by both paths of the low branch. -/
def runLowUpdate (env : LowEnv) (now : Nat) (st : DbState) (calls : Nat) :
    LowResult :=
  if env.updateOk then
    { st := { st with participants :=
        st.participants.map fun p => if isPendingLow p then setLowGenerated now p else p }
      count := (st.participants.filter isPendingLow).length
      genCalls := calls }
  else
    { st := st, count := 0, genCalls := calls }

/-- `processLowCondition`: check whether `low.mp3` already exists in the
bucket; if not, generate it once and upload it, returning 0 on failure
without touching any row; then update all currently pending low rows in
one bulk operation. -/
def processLowCondition (env : LowEnv) (now : Nat) (st : DbState) : LowResult :=
  if st.storage.contains "low.mp3" then
    runLowUpdate env now st 0
  else if env.ttsOk then
    if env.uploadOk then
      runLowUpdate env now { st with storage := "low.mp3" :: st.storage } 1
    else
      { st := st, count := 0, genCalls := 1 }
  else
    { st := st, count := 0, genCalls := 1 }

lemma processLowCondition_genCalls_le (env : LowEnv) (now : Nat) (st : DbState) :
    (processLowCondition env now st).genCalls ≤ 1 := by
  unfold processLowCondition runLowUpdate
  by_cases h1 : st.storage.contains "low.mp3" = true
  · rw [if_pos h1]
    by_cases h2 : env.updateOk = true <;> simp [h2]
  · rw [if_neg h1]
    cases env.ttsOk <;> cases env.uploadOk <;>
      by_cases h2 : env.updateOk = true <;> simp [h2]

lemma processLowCondition_success (env : LowEnv) (now : Nat) (st : DbState)
    (htts : env.ttsOk = true) (hupl : env.uploadOk = true)
    (hupd : env.updateOk = true) :
    ∃ st1, (processLowCondition env now st).st = st1 ∧
      st1.storage.contains "low.mp3" = true ∧
      st1.participants =
        st.participants.map (fun p => if isPendingLow p then setLowGenerated now p else p) := by
  unfold processLowCondition runLowUpdate
  by_cases h1 : st.storage.contains "low.mp3" = true
  · rw [if_pos h1, if_pos hupd]
    exact ⟨_, rfl, h1, rfl⟩
  · rw [if_neg h1, if_pos htts, if_pos hupl, if_pos hupd]
    refine ⟨_, rfl, ?_, rfl⟩
    simp [List.contains_cons]

lemma setLowGenerated_not_pending (now : Nat) (p : Participant) :
    isPendingLow (setLowGenerated now p) = false := by
  simp [isPendingLow, setLowGenerated]

/-- C4: the low-condition branch. The generation call happens at most once
per run and never when the shared artifact already exists, independently
of how many rows are pending; after one fully successful run every
previously pending low row is `generated` with the shared path `low.mp3`;
a second run on the resulting state changes nothing and performs zero
generation calls; and if artifact creation fails (TTS or upload, with the
artifact absent), no row is updated. -/
theorem process_low_condition_spec (env env2 : LowEnv) (now now2 : Nat)
    (st : DbState) :
    ((processLowCondition env now st).genCalls ≤ 1) ∧
    (st.storage.contains "low.mp3" = true →
      (processLowCondition env now st).genCalls = 0) ∧
    (∀ parts2 : List Participant,
      (processLowCondition env now { st with participants := parts2 }).genCalls =
        (processLowCondition env now st).genCalls) ∧
    (env.ttsOk = true → env.uploadOk = true → env.updateOk = true →
      (∀ p ∈ st.participants, isPendingLow p = true →
        setLowGenerated now p ∈ (processLowCondition env now st).st.participants ∧
        (setLowGenerated now p).audio_status = some "generated" ∧
        (setLowGenerated now p).audio_path = some "low.mp3") ∧
      (processLowCondition env2 now2 (processLowCondition env now st).st).st =
        (processLowCondition env now st).st ∧
      (processLowCondition env2 now2 (processLowCondition env now st).st).genCalls = 0) ∧
    (st.storage.contains "low.mp3" = false →
      (env.ttsOk = false ∨ env.uploadOk = false) →
      (processLowCondition env now st).st = st) := by
  refine ⟨processLowCondition_genCalls_le env now st, ?_, ?_, ?_, ?_⟩
  · intro h1
    unfold processLowCondition runLowUpdate
    rw [if_pos h1]
    by_cases h2 : env.updateOk = true <;> simp [h2]
  · intro parts2
    unfold processLowCondition runLowUpdate
    by_cases h1 : st.storage.contains "low.mp3" = true
    · simp only [h1, if_true]
      by_cases h2 : env.updateOk = true <;> simp [h2]
    · simp only [h1, Bool.false_eq_true, if_false]
      cases env.ttsOk <;> cases env.uploadOk <;>
        by_cases h2 : env.updateOk = true <;> simp [h2]
  · intro htts hupl hupd
    rcases processLowCondition_success env now st htts hupl hupd with
      ⟨st1, hst1, hmem, hparts⟩
    constructor
    · intro p hp hpend
      refine ⟨?_, rfl, rfl⟩
      rw [hst1, hparts]
      have := List.mem_map_of_mem
        (fun q => if isPendingLow q then setLowGenerated now q else q) hp
      simpa [hpend] using this
    · have hnopend : ∀ q ∈ st1.participants, isPendingLow q = false := by
        intro q hq
        rw [hparts] at hq
        rcases List.mem_map.mp hq with ⟨p, hp, hfp⟩
        by_cases hpend : isPendingLow p = true
        · rw [if_pos hpend] at hfp
          subst hfp
          exact setLowGenerated_not_pending now p
        · rw [if_neg hpend] at hfp
          subst hfp
          exact Bool.eq_false_iff.mpr hpend
      have hmapid : st1.participants.map
          (fun p => if isPendingLow p then setLowGenerated now2 p else p) =
            st1.participants := by
        rw [List.map_congr_left (g := id) ?_, List.map_id]
        intro p hp
        simp [hnopend p hp]
      constructor
      · rw [hst1]
        unfold processLowCondition runLowUpdate
        rw [if_pos hmem]
        by_cases h2 : env2.updateOk = true
        · rw [if_pos h2]
          simp only
          cases st1 with
          | mk stor parts =>
            simp only at hmapid
            simp [hmapid]
        · rw [if_neg h2]
      · rw [hst1]
        unfold processLowCondition runLowUpdate
        rw [if_pos hmem]
        by_cases h2 : env2.updateOk = true <;> simp [h2]
  · intro h1 hfail
    unfold processLowCondition
    simp only [h1, Bool.false_eq_true, if_false]
    rcases hfail with h | h
    · rw [h]
      cases env.uploadOk <;> simp
    · rw [h]
      cases env.ttsOk <;> simp

/-- A pending low-condition row for the batch witnesses. -/
def pendingLowP : Participant :=
  { prolific_pid := "P1", condition := some "low" }

theorem process_low_condition_spec_witness :
    (setLowGenerated 5 pendingLowP ∈
      (processLowCondition { ttsOk := true, uploadOk := true, updateOk := true } 5
        { storage := [], participants := [pendingLowP] }).st.participants) ∧
    (processLowCondition { ttsOk := true, uploadOk := true, updateOk := true } 6
        (processLowCondition { ttsOk := true, uploadOk := true, updateOk := true } 5
          { storage := [], participants := [pendingLowP] }).st).st =
      (processLowCondition { ttsOk := true, uploadOk := true, updateOk := true } 5
        { storage := [], participants := [pendingLowP] }).st ∧
    (processLowCondition { ttsOk := true, uploadOk := true, updateOk := true } 6
        (processLowCondition { ttsOk := true, uploadOk := true, updateOk := true } 5
          { storage := [], participants := [pendingLowP] }).st).genCalls = 0 :=
  have h := (process_low_condition_spec
    { ttsOk := true, uploadOk := true, updateOk := true }
    { ttsOk := true, uploadOk := true, updateOk := true } 5 6
    { storage := [], participants := [pendingLowP] }).2.2.2.1 rfl rfl rfl
  ⟨(h.1 pendingLowP (List.mem_singleton.mpr rfl) (by decide)).1, h.2.1, h.2.2⟩

/-
Medium/high branch of the batch script, `processMediumHighConditions`.
-/

/-- Outcome of the generate-and-upload attempt for one record: success, a
TTS provider error carrying the status code and response body, or a
storage upload error carrying the storage message. -/
inductive GenOutcome where
  | ok
  | ttsError (statusCode : Nat) (body : String)
  | uploadError (msg : String)
  deriving Repr, DecidableEq

/-- The error message the script catches for a failed record, exactly as
the two throwing helpers construct it. -/
def outcomeErrMsg : GenOutcome → String
  | GenOutcome.ok => ""
  | GenOutcome.ttsError c b => "ElevenLabs API error: " ++ toString c ++ " - " ++ b
  | GenOutcome.uploadError m => "Supabase upload error: " ++ m

/-- The fetch filter of the medium/high branch: condition in
`medium`/`high` and audio status `pending`. -/
def isPendingMedHigh (p : Participant) : Bool :=
  (p.condition = some "medium" || p.condition = some "high") &&
    p.audio_status = some "pending"

/-- Success update of the loop body: status `generated`, the
identifier-derived path, the timestamp, error cleared. -/
def setGenerated (now : Nat) (path : String) (p : Participant) : Participant :=
  { p with
    audio_status := some "generated"
    audio_path := some path
    audio_generated_at := some now
    audio_error := none }

/-- Failure update of the loop body: status `error` and the caught message
truncated to its first 500 characters; `audio_path` is not written. -/
def setAudioError (msg : String) (p : Participant) : Participant :=
  { p with
    audio_status := some "error"
    audio_error := some (String.mk (msg.data.take 500)) }


/-- The field object the loop writes for one fetched record, as a function
of the generation outcome of that record, applied to the stored row matched by
pid. -/
def outcomeUpdate (env : String → GenOutcome) (now : Nat) (p : Participant) :
    Participant → Participant :=
  match env p.prolific_pid with
  | GenOutcome.ok => setGenerated now (p.prolific_pid ++ ".mp3")
  | o => setAudioError (outcomeErrMsg o)

/-- Whether the generate-and-upload attempt of one batch record succeeds. -/
def outcomeOk (env : String → GenOutcome) (p : Participant) : Bool :=
  match env p.prolific_pid with
  | GenOutcome.ok => true
  | _ => false

/-- The sequential loop of the medium/high branch over the table: the
row of each fetched record is updated in order; a failure is recorded in that
row and the loop continues with the next record. -/
def loopParts (env : String → GenOutcome) (now : Nat)
    (batch : List Participant) (parts : List Participant) : List Participant :=
  batch.foldl (fun acc p => updateByPid p.prolific_pid (outcomeUpdate env now p) acc)
    parts

/-- The fetch of the medium/high branch: pending medium/high rows, capped
at `BATCH_SIZE` by the query limit (applied before processing). -/
def medHighBatch (st : DbState) : List Participant :=
  (st.participants.filter isPendingMedHigh).take BATCH_SIZE

/-- `processMediumHighConditions`: fetch the capped batch, run the loop,
and report the generated and errored counters. `fetchOk` is the outcome
oracle of the fetch; on a fetch error the run reports zero counts and
touches nothing. -/
def processMediumHighConditions (fetchOk : Bool) (env : String → GenOutcome)
    (now : Nat) (st : DbState) : DbState × Nat × Nat :=
  if !fetchOk then (st, 0, 0)
  else
    ({ st with participants := loopParts env now (medHighBatch st) st.participants },
      ((medHighBatch st).filter (outcomeOk env)).length,
      ((medHighBatch st).filter (fun p => !(outcomeOk env p))).length)

lemma outcomeUpdate_pid (env : String → GenOutcome) (now : Nat)
    (p row : Participant) :
    (outcomeUpdate env now p row).prolific_pid = row.prolific_pid := by
  unfold outcomeUpdate
  cases env p.prolific_pid <;> rfl

lemma filter_pos_neg_length {α : Type} (f : α → Bool) (l : List α) :
    (l.filter f).length + (l.filter (fun x => !(f x))).length = l.length := by
  induction l with
  | nil => rfl
  | cons a rest ih =>
    rw [List.filter_cons, List.filter_cons]
    by_cases h : f a = true
    · rw [if_pos h, if_neg (by simp [h])]
      simp only [List.length_cons]
      omega
    · have hf : f a = false := Bool.eq_false_iff.mpr h
      rw [if_neg (by simp [hf]), if_pos (by simp [hf])]
      simp only [List.length_cons]
      omega

lemma loopParts_untouched (env : String → GenOutcome) (now : Nat)
    (batch : List Participant) (parts : List Participant) (q : Participant)
    (hq : q ∈ parts)
    (hout : q.prolific_pid ∉ batch.map Participant.prolific_pid) :
    q ∈ loopParts env now batch parts := by
  induction batch generalizing parts with
  | nil => exact hq
  | cons p rest ih =>
    simp only [List.map_cons, List.mem_cons, not_or] at hout
    have hq1 : q ∈ updateByPid p.prolific_pid (outcomeUpdate env now p) parts := by
      unfold updateByPid
      have hm := List.mem_map_of_mem
        (fun r => if r.prolific_pid = p.prolific_pid then outcomeUpdate env now p r else r)
        hq
      simpa [hout.1] using hm
    exact ih _ hq1 hout.2

lemma loopParts_processed (env : String → GenOutcome) (now : Nat)
    (batch : List Participant) (parts : List Participant)
    (hnd : (parts.map Participant.prolific_pid).Nodup)
    (hbnd : (batch.map Participant.prolific_pid).Nodup)
    (hsub : ∀ p ∈ batch, p ∈ parts) :
    ∀ p ∈ batch, outcomeUpdate env now p p ∈ loopParts env now batch parts := by
  induction batch generalizing parts with
  | nil => intro p hp; cases hp
  | cons hd rest ih =>
    simp only [List.map_cons, List.nodup_cons] at hbnd
    intro p hp
    rcases List.mem_cons.mp hp with hph | hpr
    · subst hph
      have hupd : outcomeUpdate env now p p ∈
          updateByPid p.prolific_pid (outcomeUpdate env now p) parts :=
        updateByPid_mem _ (hsub p (List.mem_cons_self p rest)) _ rfl
      have hpid : (outcomeUpdate env now p p).prolific_pid = p.prolific_pid :=
        outcomeUpdate_pid env now p p
      have : (outcomeUpdate env now p p).prolific_pid ∉
          rest.map Participant.prolific_pid := by
        rw [hpid]; exact hbnd.1
      exact loopParts_untouched env now rest _ _ hupd this
    · have hnd1 : ((updateByPid hd.prolific_pid (outcomeUpdate env now hd)
          parts).map Participant.prolific_pid).Nodup := by
        rw [updateByPid_map_pid hd.prolific_pid _ (outcomeUpdate_pid env now hd) parts]
        exact hnd
      refine ih _ hnd1 hbnd.2 ?_ p hpr
      intro r hr
      have hrp : r.prolific_pid ≠ hd.prolific_pid := by
        intro he
        exact hbnd.1 (he ▸ List.mem_map_of_mem Participant.prolific_pid hr)
      unfold updateByPid
      have hm := List.mem_map_of_mem
        (fun s => if s.prolific_pid = hd.prolific_pid then outcomeUpdate env now hd s else s)
        (hsub r (List.mem_cons_of_mem hd hr))
      simpa [hrp] using hm

lemma errMsg_len_pos (o : GenOutcome) (hno : o ≠ GenOutcome.ok) :
    1 ≤ (outcomeErrMsg o).length := by
  cases o with
  | ok => exact absurd rfl hno
  | ttsError c b =>
    unfold outcomeErrMsg
    rw [String.length_append, String.length_append, String.length_append]
    have : 1 ≤ ("ElevenLabs API error: " : String).length := by decide
    omega
  | uploadError m =>
    unfold outcomeErrMsg
    rw [String.length_append]
    have : 1 ≤ ("Supabase upload error: " : String).length := by decide
    omega

lemma truncated_msg_bounds (msg : String) (hlen : 1 ≤ msg.length) :
    (String.mk (msg.data.take 500)).length ≤ 500 ∧
    String.mk (msg.data.take 500) ≠ "" := by
  have h1 : (String.mk (msg.data.take 500)).length = (msg.data.take 500).length :=
    String.length_mk _
  have h2 : (msg.data.take 500).length = min 500 msg.data.length :=
    List.length_take 500 msg.data
  have hmd : msg.data.length = msg.length := rfl
  constructor
  · rw [h1, h2]
    omega
  · intro hemp
    have : (String.mk (msg.data.take 500)).length = 0 := by rw [hemp]; rfl
    rw [h1, h2] at this
    omega

lemma mp3_path_injective (s1 s2 : String) (h : s1 ++ ".mp3" = s2 ++ ".mp3") :
    s1 = s2 := by
  have hd : (s1 ++ ".mp3").data = (s2 ++ ".mp3").data := congrArg String.data h
  rw [String.data_append, String.data_append] at hd
  exact String.ext (List.append_cancel_right hd)

/-- C5: the medium/high branch. The batch is capped at 50 before
processing; the generated and errored counters sum to the number
processed; the row of every processed record ends in exactly one of the two
terminal outcomes — `generated` with the identifier-derived path on
success, or `error` with a non-empty message of at most 500 characters and
the previous path untouched on failure — regardless of the outcomes of the
other records (isolated partial failure); and identifier-derived paths of
distinct identifiers are distinct. -/
theorem process_medium_high_spec (env : String → GenOutcome) (now : Nat)
    (st : DbState)
    (hnd : (st.participants.map Participant.prolific_pid).Nodup) :
    (medHighBatch st).length ≤ 50 ∧
    (processMediumHighConditions true env now st).2.1 +
        (processMediumHighConditions true env now st).2.2 =
      (medHighBatch st).length ∧
    (∀ p ∈ medHighBatch st,
      ∃ q ∈ (processMediumHighConditions true env now st).1.participants,
        q.prolific_pid = p.prolific_pid ∧
        ((outcomeOk env p = true ∧ q.audio_status = some "generated" ∧
            q.audio_path = some (p.prolific_pid ++ ".mp3")) ∨
          (outcomeOk env p = false ∧ q.audio_status = some "error" ∧
            (∃ m, q.audio_error = some m ∧ m.length ≤ 500 ∧ m ≠ "") ∧
            q.audio_path = p.audio_path))) ∧
    (∀ p1 ∈ medHighBatch st, ∀ p2 ∈ medHighBatch st,
      p1.prolific_pid ≠ p2.prolific_pid →
        p1.prolific_pid ++ ".mp3" ≠ p2.prolific_pid ++ ".mp3") := by
  have hbatch_sub : (medHighBatch st).Sublist st.participants :=
    List.Sublist.trans (List.take_sublist _ _) (List.filter_sublist _)
  have hbmem : ∀ p ∈ medHighBatch st, p ∈ st.participants :=
    fun p hp => hbatch_sub.mem hp
  have hbnd : ((medHighBatch st).map Participant.prolific_pid).Nodup :=
    List.Nodup.sublist (hbatch_sub.map Participant.prolific_pid) hnd
  refine ⟨?_, ?_, ?_, ?_⟩
  · have := List.length_take 50 (st.participants.filter isPendingMedHigh)
    unfold medHighBatch BATCH_SIZE
    omega
  · unfold processMediumHighConditions
    simp only [Bool.not_true, Bool.false_eq_true, if_false]
    exact filter_pos_neg_length (outcomeOk env) _
  · intro p hp
    refine ⟨outcomeUpdate env now p p, ?_, outcomeUpdate_pid env now p p, ?_⟩
    · unfold processMediumHighConditions
      simp only [Bool.not_true, Bool.false_eq_true, if_false]
      exact loopParts_processed env now _ st.participants hnd hbnd hbmem p hp
    · unfold outcomeUpdate outcomeOk
      cases ho : env p.prolific_pid with
      | ok => exact Or.inl ⟨rfl, rfl, rfl⟩
      | ttsError c b =>
        refine Or.inr ⟨rfl, rfl, ⟨String.mk ((outcomeErrMsg
          (GenOutcome.ttsError c b)).data.take 500), rfl, ?_, ?_⟩, rfl⟩
        · exact (truncated_msg_bounds _ (errMsg_len_pos _ (by simp))).1
        · exact (truncated_msg_bounds _ (errMsg_len_pos _ (by simp))).2
      | uploadError m =>
        refine Or.inr ⟨rfl, rfl, ⟨String.mk ((outcomeErrMsg
          (GenOutcome.uploadError m)).data.take 500), rfl, ?_, ?_⟩, rfl⟩
        · exact (truncated_msg_bounds _ (errMsg_len_pos _ (by simp))).1
        · exact (truncated_msg_bounds _ (errMsg_len_pos _ (by simp))).2
  · intro p1 _ p2 _ hne he
    exact hne (mp3_path_injective _ _ he)

/-- A pending medium-condition row and a pending high-condition row for
the batch witness. -/
def pendingMedP : Participant :=
  { prolific_pid := "M1", condition := some "medium" }

/-- Pending high-condition row whose generation attempt will fail in the
witness scenario. -/
def pendingHighP : Participant :=
  { prolific_pid := "H1", condition := some "high" }

/-- Outcome oracle of the witness scenario: `M1` succeeds, `H1` hits a TTS
provider error. -/
def demoEnv : String → GenOutcome := fun pid =>
  if pid = "H1" then GenOutcome.ttsError 429 "rate limited" else GenOutcome.ok

theorem process_medium_high_spec_witness :
    (processMediumHighConditions true demoEnv 5
        { storage := ["low.mp3"], participants := [pendingMedP, pendingHighP] }).2.1 +
      (processMediumHighConditions true demoEnv 5
        { storage := ["low.mp3"], participants := [pendingMedP, pendingHighP] }).2.2 =
      (medHighBatch
        { storage := ["low.mp3"], participants := [pendingMedP, pendingHighP] }).length ∧
    ∃ q ∈ (processMediumHighConditions true demoEnv 5
        { storage := ["low.mp3"], participants := [pendingMedP, pendingHighP] }).1.participants,
      q.prolific_pid = pendingHighP.prolific_pid ∧
      ((outcomeOk demoEnv pendingHighP = true ∧ q.audio_status = some "generated" ∧
          q.audio_path = some (pendingHighP.prolific_pid ++ ".mp3")) ∨
        (outcomeOk demoEnv pendingHighP = false ∧ q.audio_status = some "error" ∧
          (∃ m, q.audio_error = some m ∧ m.length ≤ 500 ∧ m ≠ "") ∧
          q.audio_path = pendingHighP.audio_path)) :=
  have h := process_medium_high_spec demoEnv 5
    { storage := ["low.mp3"], participants := [pendingMedP, pendingHighP] }
    (by decide)
  ⟨h.2.1, h.2.2.1 pendingHighP (by decide)⟩
